import Mathlib

/-!
Verification of the YouTube Automator backend
(Flask application: app.py, auth.py, playlists.py, youtube_service.py,
backend/routes/upload.py, backend/routes/metadata.py).

Python strings are modelled as lists of characters (`PyStr`); Python string
operations (strip, split, lower, rsplit) are defined with Python semantics.
Each Flask handler is embedded as a total function from an explicit
environment (request contents, configuration, and the outcomes of the
external calls it makes) to an HTTP result, paired where relevant with a
trace of its side effects.  A Python exception raised by an external call is
an `Except.error` value in the environment; a handler that catches an
exception is modelled by the corresponding catch clause of the source, so a
handler whose every exit is a catch clause is a total function into its
response type.
-/

namespace YTAuto

/-- A Python string, as its sequence of characters. -/
abbrev PyStr := List Char

/-- The whitespace characters stripped by Python str.strip(). -/
def pySpace (c : Char) : Bool :=
  c = ' ' || c = '\t' || c = '\n' || c = '\r' || c = '\x0b' || c = '\x0c'

/-- Python str.lstrip(). -/
def pyLstrip (s : PyStr) : PyStr := s.dropWhile pySpace

/-- Python str.rstrip(). -/
def pyRstrip (s : PyStr) : PyStr := (s.reverse.dropWhile pySpace).reverse

/-- Python str.strip(): drop whitespace from both ends. -/
def pyStrip (s : PyStr) : PyStr := pyRstrip (pyLstrip s)

/-- Python str.lower() (ASCII case folding, as used on file extensions). -/
def pyLower (s : PyStr) : PyStr := s.map Char.toLower

/-- Python s.split(sep) for a one-character separator: splits on every
occurrence, keeping empty segments ("".split(",") is [""]). -/
def pySplit (sep : Char) : PyStr → List PyStr
  | [] => [[]]
  | c :: cs =>
    if c = sep then [] :: pySplit sep cs
    else
      match pySplit sep cs with
      | [] => [[c]]
      | h :: t => (c :: h) :: t

/-- Python s.rsplit(sep, 1): at most one split, from the right.  With the
separator present the result is the two parts around its last occurrence;
otherwise the whole string. -/
def pyRsplit1 (sep : Char) (s : PyStr) : List PyStr :=
  if sep ∈ s then
    [((s.reverse.dropWhile (· ≠ sep)).tail).reverse,
     (s.reverse.takeWhile (· ≠ sep)).reverse]
  else [s]

/-- sep.join(l) for a one-character separator (the claim side of tag
round-tripping: the comma-joined string of a tag list). -/
def pyJoin (sep : Char) : List PyStr → PyStr
  | [] => []
  | [t] => t
  | t :: ts => t ++ sep :: pyJoin sep ts

/-- Truthiness of an optional Python string (None and "" are falsy). -/
def pyTruthy : Option PyStr → Bool
  | none => false
  | some s => s ≠ []

/-- A Python exception, separated into the googleapiclient HttpError class
(carrying the rendered upstream error content) and every other exception
(carrying its str()). -/
inductive PyErr : Type
  | http (content : PyStr)
  | other (msg : PyStr)
deriving DecidableEq

/-- str(e) of a modelled exception. -/
def PyErr.str : PyErr → PyStr
  | .http content => content
  | .other msg => msg

instance {ε α : Type} [DecidableEq ε] [DecidableEq α] : DecidableEq (Except ε α)
  | .error a, .error b => decidable_of_iff (a = b) (by simp)
  | .error _, .ok _ => isFalse (by simp)
  | .ok _, .error _ => isFalse (by simp)
  | .ok a, .ok b => decidable_of_iff (a = b) (by simp)

/-- A flask response: HTTP status code (jsonify with no code is 200) and a
JSON body. -/
structure Resp (β : Type) where
  code : Nat
  body : β
deriving DecidableEq

end YTAuto

namespace YTAuto.Service

/-! ## youtube_service.py (get_youtube_service) -/

/-- An OAuth2 credential as loaded by
Credentials.from_authorized_user_file: token material, expiry state and the
optional refresh token. -/
structure Creds where
  token : Option PyStr
  expired : Bool
  refresh_token : Option PyStr
deriving DecidableEq

/-- google-auth credential validity: a token is present and it is not
expired. -/
def Creds.valid (c : Creds) : Bool := c.token.isSome && !c.expired

/-- The handle returned by build("youtube", "v3", ...); its identity is all
the embedding needs. -/
structure Client where
  tag : Nat
deriving DecidableEq

/-- Environment of one get_youtube_service call: whether the token file
exists, and the outcomes of the four fallible external steps (credential
parse, token refresh, token-file rewrite, client build).  An error value is
the exception that step would raise. -/
structure TokenEnv where
  fileExists : Bool
  parseOutcome : Except PyErr Creds
  refreshOutcome : Except PyErr Creds
  writeOutcome : Except PyErr Unit
  buildOutcome : Except PyErr Client
deriving DecidableEq

/-- get_youtube_service from youtube_service.py.  All exception paths are
caught in the source (inner handlers return None; the outer handler returns
None), so the embedding is a total function into Option Client and the
handler never raises. -/
def get_youtube_service (env : TokenEnv) : Option Client :=
  let loaded : Except PyErr (Option Creds) :=
    if env.fileExists then env.parseOutcome.map some else .ok none
  match loaded with
  | .error _ => none
  | .ok none => none
  | .ok (some c) =>
    if c.valid then
      match env.buildOutcome with
      | .ok s => some s
      | .error _ => none
    else if c.expired && pyTruthy c.refresh_token then
      match env.refreshOutcome with
      | .error _ => none
      | .ok _ =>
        match env.writeOutcome with
        | .error _ => none
        | .ok _ =>
          match env.buildOutcome with
          | .ok s => some s
          | .error _ => none
    else none

end YTAuto.Service

namespace YTAuto.Auth

/-! ## auth.py (logout) -/

/-- The state logout touches: the token file at TOKEN_FILE and the Flask
session. -/
structure AuthState where
  tokenFileExists : Bool
  sessionKeys : List (PyStr × PyStr)
deriving DecidableEq

/-- The logout response body. -/
structure LogoutBody where
  message : PyStr
  status : PyStr
deriving DecidableEq

/-- logout from auth.py: remove the token file if it exists, clear the
session, return a success body with implicit HTTP 200.  No modelled step
raises (the removal is guarded by the existence check), so the except
branch is dead. -/
def logout (s : AuthState) : AuthState × Resp LogoutBody :=
  let s1 := if s.tokenFileExists then { s with tokenFileExists := false } else s
  let s2 := { s1 with sessionKeys := [] }
  (s2, ⟨200, ⟨"Successfully logged out".data, "success".data⟩⟩)

end YTAuto.Auth

namespace YTAuto.Upload

/-! ## backend/routes/upload.py -/

/-- ALLOWED_EXTENSIONS from upload.py. -/
def ALLOWED_EXTENSIONS : List PyStr :=
  ["mp4", "avi", "mov", "wmv", "flv", "webm", "mkv"].map String.data

/-- allowed_file from upload.py:
a dot occurs in the filename, and the lowercased part after the last dot
(element [1] of filename.rsplit(".", 1), which is its last element) is an
allowed extension. -/
def allowed_file (filename : PyStr) : Bool :=
  decide ('.' ∈ filename) &&
    decide (pyLower ((pyRsplit1 '.' filename).getLastD []) ∈ ALLOWED_EXTENSIONS)

/-- The characters after the last dot of a filename (the claim-side reading
of the extension; compared against the rsplit-based source computation). -/
def suffixAfterLastDot (filename : PyStr) : PyStr :=
  (filename.reverse.takeWhile (· ≠ '.')).reverse

/-- werkzeug secure_filename, modelled as keeping only safe characters; no
claim inspects its output beyond echoing it. -/
def secure_filename (s : PyStr) : PyStr :=
  s.filter fun c => c.isAlphanum || c = '.' || c = '_' || c = '-'

/-- Side effects of the upload handlers: temp-directory management and the
calls made to the video host. -/
inductive Effect : Type
  | mkdtemp
  | saveTemp
  | videosInsert
  | playlistItemsInsert
  | removeTemp
  | rmdirTemp
deriving DecidableEq

/-- Diagnostics of validate_upload.  The file-type message interpolates
", ".join(ALLOWED_EXTENSIONS) over a Python set, whose iteration order is
unspecified, so the messages are modelled as an enumeration rather than as
strings; no claim inspects the text. -/
inductive ValidateError : Type
  | noVideoFileProvided
  | noFileSelected
  | fileTypeNotAllowed
  | fileTooLarge (maxMb : Nat)
deriving DecidableEq

/-- The validate_upload response body (the floating-point size_mb display
field is not modelled; no claim concerns it). -/
structure ValidateBody where
  error : Option ValidateError := none
  valid : Option Bool := none
  filename : Option PyStr := none
  size : Option Nat := none
deriving DecidableEq

/-- Environment of one validate_upload call: the multipart request (file
field present, its filename, the byte count reported by seek/tell) and the
MAX_CONTENT_LENGTH configuration entry (app.py sets it to 500 * 1024 * 1024;
the handler reads it with the same default). -/
structure ValidateEnv where
  hasVideoField : Bool
  filename : PyStr
  fileSize : Nat
  cfgMaxContentLength : Option Nat
deriving DecidableEq

/-- validate_upload from upload.py.  The effect trace records temp-file and
video-host activity; the source performs none in this handler (it only
seeks the in-memory stream), and no modelled step raises. -/
def validate_upload (env : ValidateEnv) : Resp ValidateBody × List Effect :=
  if !env.hasVideoField then
    (⟨400, { error := some .noVideoFileProvided }⟩, [])
  else if env.filename.isEmpty then
    (⟨400, { error := some .noFileSelected }⟩, [])
  else if !allowed_file env.filename then
    (⟨400, { valid := some false, error := some .fileTypeNotAllowed }⟩, [])
  else
    let maxSize := env.cfgMaxContentLength.getD (500 * 1024 * 1024)
    if env.fileSize > maxSize then
      (⟨400, { valid := some false,
               error := some (.fileTooLarge (maxSize / (1024 * 1024))) }⟩, [])
    else
      (⟨200, { valid := some true, filename := some (secure_filename env.filename),
               size := some env.fileSize }⟩, [])

/-- One step of the resumable-upload loop: next_chunk() yields an
intermediate progress status, the terminal response (carrying the video id),
or raises. -/
inductive ChunkStep : Type
  | progress (pct : Nat)
  | done (videoId : PyStr)
  | fail (e : PyErr)
deriving DecidableEq

/-- The while-response-is-None loop of upload_video over the chunk
sequence: skip progress reports until a terminal response or an exception;
an exhausted sequence means the loop never returns (modelled as none). -/
def runChunks : List ChunkStep → Option (Except PyErr PyStr)
  | [] => none
  | .progress _ :: rest => runChunks rest
  | .done v :: _ => some (.ok v)
  | .fail e :: _ => some (.error e)

/-- Environment of one upload_video call: the multipart request and form
fields, availability of the YouTube service handle, the resumable-upload
chunk sequence, and the outcome of the playlistItems().insert() attach
call. -/
structure UploadEnv where
  hasVideoField : Bool
  filename : PyStr
  formTitle : Option PyStr
  formDescription : Option PyStr
  formTags : Option PyStr
  formCategoryId : Option PyStr
  formPrivacyStatus : Option PyStr
  formPlaylistId : Option PyStr
  youtubeAvailable : Bool
  chunks : List ChunkStep
  playlistInsertOutcome : Except PyErr Unit
deriving DecidableEq

/-- The upload_video response body (success and error shapes share one
record of optional fields). -/
structure UploadBody where
  error : Option PyStr := none
  video_id : Option PyStr := none
  video_url : Option PyStr := none
  title : Option PyStr := none
  status : Option PyStr := none
  message : Option PyStr := none
deriving DecidableEq

/-- The success body built by upload_video after a terminal upload
response. -/
def successBody (vid title : PyStr) : UploadBody :=
  { video_id := some vid,
    video_url := some ("https://www.youtube.com/watch?v=".data ++ vid),
    title := some title,
    status := some "success".data,
    message := some "Video uploaded successfully".data }

/-- upload_video from upload.py.  none models a chunk loop that never
reaches a terminal response (the handler does not return).  The request
body sent to videos().insert() (title, description, cleaned tags, category,
privacy) is marshalled from the form exactly as in the source but is not
recorded in the trace: no claim inspects the outbound body, only the
response and the effect sequence.  The finally block runs its cleanup on
every path that saved the temp file; exceptions other than HttpError at the
playlist attach escape that step's HttpError-only handler and reach the
outer generic handler. -/
def uploadVideo (env : UploadEnv) : Option (Resp UploadBody × List Effect) :=
  if !env.hasVideoField then
    some (⟨400, { error := some "No video file provided".data }⟩, [])
  else if env.filename.isEmpty then
    some (⟨400, { error := some "No file selected".data }⟩, [])
  else if !allowed_file env.filename then
    some (⟨400, { error := some "File type not allowed".data }⟩, [])
  else
    let title := env.formTitle.getD "Untitled Video".data
    if !env.youtubeAvailable then
      some (⟨401, { error := some "YouTube authentication required".data }⟩, [])
    else
      match runChunks env.chunks with
      | none => none
      | some (.error e) =>
        let effs : List Effect := [.mkdtemp, .saveTemp, .videosInsert, .removeTemp, .rmdirTemp]
        match e with
        | .http content =>
          some (⟨400, { error := some ("YouTube API error: ".data ++ content),
                        status := some "error".data }⟩, effs)
        | .other msg =>
          some (⟨500, { error := some msg, status := some "error".data }⟩, effs)
      | some (.ok vid) =>
        if pyTruthy env.formPlaylistId then
          let effs : List Effect :=
            [.mkdtemp, .saveTemp, .videosInsert, .playlistItemsInsert, .removeTemp, .rmdirTemp]
          match env.playlistInsertOutcome with
          | .ok _ => some (⟨200, successBody vid title⟩, effs)
          | .error (.http _) => some (⟨200, successBody vid title⟩, effs)
          | .error (.other msg) =>
            some (⟨500, { error := some msg, status := some "error".data }⟩, effs)
        else
          some (⟨200, successBody vid title⟩,
                [.mkdtemp, .saveTemp, .videosInsert, .removeTemp, .rmdirTemp])

/-- A concrete upload_video environment in which the resumable upload
succeeds and the playlist attach raises an exception that is not an
HttpError (for example a transport failure). -/
def attachOtherErrorEnv : UploadEnv :=
  { hasVideoField := true,
    filename := "clip.mp4".data,
    formTitle := some "My clip".data,
    formDescription := none,
    formTags := none,
    formCategoryId := none,
    formPrivacyStatus := none,
    formPlaylistId := some "PL1".data,
    youtubeAvailable := true,
    chunks := [.progress 50, .done "vid123".data],
    playlistInsertOutcome := .error (.other "socket timeout".data) }

end YTAuto.Upload

namespace YTAuto.Metadata

/-! ## backend/routes/metadata.py (generate_metadata) -/

/-- Tag parsing from generate_metadata: split the completion on commas,
strip each piece, drop pieces that strip to nothing. -/
def parseTags (s : PyStr) : List PyStr :=
  ((pySplit ',' s).map pyStrip).filter fun t => t ≠ []

/-- valid_categories from generate_metadata. -/
def valid_categories : List PyStr :=
  ["1", "2", "10", "15", "17", "19", "20", "22", "23", "24", "25", "26", "27", "28"].map
    String.data

/-- Environment of one generate_metadata call: the parsed JSON body (absent
or empty is falsy) with its optional fields, and the outcomes of the four
language-model calls in source order; an error value is the exception the
call would raise. -/
structure MetaEnv where
  hasData : Bool
  text : Option PyStr
  topic : Option PyStr
  audience : Option PyStr
  style : Option PyStr
  titleOutcome : Except PyErr PyStr
  descriptionOutcome : Except PyErr PyStr
  tagsOutcome : Except PyErr PyStr
  categoryOutcome : Except PyErr PyStr
deriving DecidableEq

/-- The generate_metadata response body. -/
structure MetaBody where
  error : Option PyStr := none
  title : Option PyStr := none
  description : Option PyStr := none
  tags : Option (List PyStr) := none
  category_id : Option PyStr := none
  status : Option PyStr := none
deriving DecidableEq

/-- generate_metadata from metadata.py: validate the request, run the four
completions in order (the first exception reaches the outer handler and
yields a 500 error body), then strip the title and description, parse the
tags, and validate the stripped category completion against
valid_categories, defaulting to "22". -/
def generate_metadata (env : MetaEnv) : Resp MetaBody :=
  if !env.hasData then
    ⟨400, { error := some "No data provided".data }⟩
  else
    let input_text := env.text.getD []
    let video_topic := env.topic.getD []
    if input_text.isEmpty && video_topic.isEmpty then
      ⟨400, { error := some "Either text or topic must be provided".data }⟩
    else
      match env.titleOutcome with
      | .error e => ⟨500, { error := some e.str, status := some "error".data }⟩
      | .ok titleRaw =>
      match env.descriptionOutcome with
      | .error e => ⟨500, { error := some e.str, status := some "error".data }⟩
      | .ok descRaw =>
      match env.tagsOutcome with
      | .error e => ⟨500, { error := some e.str, status := some "error".data }⟩
      | .ok tagsRaw =>
      match env.categoryOutcome with
      | .error e => ⟨500, { error := some e.str, status := some "error".data }⟩
      | .ok catRaw =>
        let category0 := pyStrip catRaw
        let category_id := if category0 ∈ valid_categories then category0 else "22".data
        ⟨200, { title := some (pyStrip titleRaw),
                description := some (pyStrip descRaw),
                tags := some (parseTags (pyStrip tagsRaw)),
                category_id := some category_id,
                status := some "success".data }⟩

/-- A concrete generate_metadata environment whose category completion
carries surrounding whitespace around a permitted code. -/
def paddedCategoryEnv : MetaEnv :=
  { hasData := true,
    text := some "a video about cats".data,
    topic := none,
    audience := none,
    style := none,
    titleOutcome := .ok "Cats".data,
    descriptionOutcome := .ok "About cats".data,
    tagsOutcome := .ok "cats, pets".data,
    categoryOutcome := .ok " 23 ".data }

end YTAuto.Metadata

namespace YTAuto.Playlists

/-! ## playlists.py (list_playlists) -/

/-- One playlist resource as returned by the host inside a page: the fields
the marshalling loop reads (optional ones are read with .get defaults). -/
structure PlaylistItem where
  id : PyStr
  title : PyStr
  description : Option PyStr
  thumbnailUrl : Option PyStr
  privacyStatus : PyStr
  itemCount : Option Nat
  publishedAt : PyStr
deriving DecidableEq

/-- The playlist_info dict built for each item by list_playlists. -/
structure PlaylistInfo where
  id : PyStr
  title : PyStr
  description : PyStr
  thumbnail : Option PyStr
  privacy_status : PyStr
  video_count : Nat
  created_at : PyStr
deriving DecidableEq

/-- The per-item marshalling of the loop body of list_playlists. -/
def marshalItem (it : PlaylistItem) : PlaylistInfo :=
  { id := it.id,
    title := it.title,
    description := it.description.getD [],
    thumbnail := it.thumbnailUrl,
    privacy_status := it.privacyStatus,
    video_count := it.itemCount.getD 0,
    created_at := it.publishedAt }

/-- One response page of playlists().list(): its items and the opaque next
page token, which the mocked host interprets as the index of the page it
serves. -/
structure Page where
  items : List PlaylistItem
  nextPageToken : Option Nat
deriving DecidableEq

/-- The request_params dict of one playlists().list() call. -/
structure ListReq where
  part : PyStr
  mine : Bool
  maxResults : Nat
  pageToken : Option Nat
deriving DecidableEq

/-- The request the handler builds: part "snippet,status", mine, maxResults
50, and the page token only when one was carried over. -/
def mkReq (tok : Option Nat) : ListReq :=
  { part := "snippet,status".data, mine := true, maxResults := 50, pageToken := tok }

/-- The mocked host: a token addresses the page with that index; a request
without a token serves page 0; an unknown token has no response. -/
def serve (pages : List Page) (tok : Option Nat) : Option Page :=
  pages[tok.getD 0]?

/-- The while-True pagination loop of list_playlists: fetch the addressed
page, marshal and accumulate its items, and follow nextPageToken until a
page carries none.  Fuel bounds the number of fetches; none models a loop
that never exits (or a token the host cannot serve).  The returned trace is
the list of issued requests in order. -/
def listLoop (pages : List Page) : Nat → Option Nat → Option (List PlaylistInfo × List ListReq)
  | 0, _ => none
  | fuel + 1, tok =>
    match serve pages tok with
    | none => none
    | some pg =>
      match pg.nextPageToken with
      | none => some (pg.items.map marshalItem, [mkReq tok])
      | some t =>
        match listLoop pages fuel (some t) with
        | none => none
        | some (rest, reqs) => some (pg.items.map marshalItem ++ rest, mkReq tok :: reqs)

/-- The list_playlists response body. -/
structure PlaylistsBody where
  playlists : List PlaylistInfo
  total_count : Nat
  status : PyStr
deriving DecidableEq

/-- list_playlists from playlists.py, run against the mocked host with an
authenticated service handle: the pagination loop starting with no page
token, wrapped in the success response.  A chain of n pages is exhausted in
n fetches, so n is enough fuel; none is a loop that never exits. -/
def list_playlists (pages : List Page) : Option (Resp PlaylistsBody × List ListReq) :=
  match listLoop pages pages.length none with
  | none => none
  | some (infos, reqs) => some (⟨200, ⟨infos, infos.length, "success".data⟩⟩, reqs)

/-- The well-formed mock of the claim: every page except the last links to
its successor, the last links nowhere. -/
def chained (pages : List Page) : Prop :=
  ∀ i ∈ List.range pages.length,
    (pages[i]?).map Page.nextPageToken =
      some (if i + 1 < pages.length then some (i + 1) else none)

instance (pages : List Page) : Decidable (chained pages) := by
  unfold chained; infer_instance

/-- A concrete two-page mock (one playlist per page) used to instantiate
the pagination theorem. -/
def twoPages : List Page :=
  [⟨[⟨"p1".data, "First".data, some "d1".data, none, "private".data, some 3, "t1".data⟩],
    some 1⟩,
   ⟨[⟨"p2".data, "Second".data, none, some "u2".data, "public".data, none, "t2".data⟩],
    none⟩]

end YTAuto.Playlists

/-! ## Theorems -/

namespace YTAuto

section Helpers

open Upload

/-- The rsplit-based extension extraction agrees with the characters after
the last dot, whenever a dot is present. -/
theorem pyRsplit1_getLastD_eq (fn : PyStr) (h : '.' ∈ fn) :
    (pyRsplit1 '.' fn).getLastD [] = suffixAfterLastDot fn := by
  simp [pyRsplit1, h, suffixAfterLastDot]

/-- Characterisation of allowed_file. -/
theorem allowed_file_iff (fn : PyStr) :
    allowed_file fn = true ↔
      ('.' ∈ fn ∧ pyLower (suffixAfterLastDot fn) ∈ ALLOWED_EXTENSIONS) := by
  by_cases h : '.' ∈ fn
  · unfold allowed_file
    rw [pyRsplit1_getLastD_eq fn h]
    simp [h]
  · simp [allowed_file, h]

end Helpers

open Upload in
/-- C10: allowed_file accepts a filename iff it contains a dot and the
lowercased substring after the last dot is one of the seven allowed
extensions; in particular "VIDEO.MP4" is accepted and the dotless "mp4" is
rejected. -/
theorem allowed_file_case_insensitive_dot_dependent :
    (∀ fn : PyStr, allowed_file fn = true ↔
        ('.' ∈ fn ∧ pyLower (suffixAfterLastDot fn) ∈ ALLOWED_EXTENSIONS))
      ∧ allowed_file "VIDEO.MP4".data = true
      ∧ allowed_file "mp4".data = false :=
  ⟨allowed_file_iff, by decide, by decide⟩

open Upload in
/-- C7: a validate_upload request carrying a file whose extension is not
allowed (no dot, or a lowercased last-dot suffix outside the allow-list) is
answered with valid = false and HTTP 400, and the handler performs no call
to the video host. -/
theorem validate_upload_bad_extension (env : ValidateEnv)
    (hvid : env.hasVideoField = true)
    (hfn : env.filename ≠ [])
    (hext : ¬ ('.' ∈ env.filename ∧
        pyLower (suffixAfterLastDot env.filename) ∈ ALLOWED_EXTENSIONS)) :
    (validate_upload env).1.code = 400 ∧
    (validate_upload env).1.body.valid = some false ∧
    (validate_upload env).2 = [] ∧
    Effect.videosInsert ∉ (validate_upload env).2 := by
  have hfe : env.filename.isEmpty = false := by
    cases h : env.filename <;> simp_all
  have haf : allowed_file env.filename = false :=
    Bool.eq_false_iff.mpr fun htrue => hext ((allowed_file_iff _).mp htrue)
  simp [validate_upload, hvid, hfe, haf]

open Upload in
/-- Witness for C7 at a concrete request: a 10-byte "notes.txt". -/
theorem validate_upload_bad_extension_witness :
    (validate_upload ⟨true, "notes.txt".data, 10, some (500 * 1024 * 1024)⟩).1.code = 400 ∧
    (validate_upload ⟨true, "notes.txt".data, 10, some (500 * 1024 * 1024)⟩).1.body.valid =
      some false ∧
    (validate_upload ⟨true, "notes.txt".data, 10, some (500 * 1024 * 1024)⟩).2 = [] ∧
    Effect.videosInsert ∉ (validate_upload ⟨true, "notes.txt".data, 10,
      some (500 * 1024 * 1024)⟩).2 :=
  validate_upload_bad_extension _ rfl (by decide) (by decide)

open Upload in
/-- C6: a validate_upload request carrying a file larger than the
configured MAX_CONTENT_LENGTH ceiling (app.py configures 500 MiB) is
answered with valid = false and HTTP 400, and no temporary file is created
(the handler records no side effect at all). -/
theorem validate_upload_over_ceiling (env : ValidateEnv)
    (hvid : env.hasVideoField = true)
    (hfn : env.filename ≠ [])
    (hsz : env.cfgMaxContentLength.getD (500 * 1024 * 1024) < env.fileSize) :
    (validate_upload env).1.code = 400 ∧
    (validate_upload env).1.body.valid = some false ∧
    (validate_upload env).2 = [] ∧
    Effect.mkdtemp ∉ (validate_upload env).2 ∧
    Effect.saveTemp ∉ (validate_upload env).2 := by
  have hfe : env.filename.isEmpty = false := by
    cases h : env.filename <;> simp_all
  by_cases haf : allowed_file env.filename
  · simp [validate_upload, hvid, hfe, haf, hsz]
  · simp [validate_upload, hvid, hfe, haf]

open Upload in
/-- Witness for C6 at the claim's scenario: a 600 MiB "video.mp4" against
the 500 MiB ceiling. -/
theorem validate_upload_over_ceiling_witness :
    (validate_upload ⟨true, "video.mp4".data, 600 * 1024 * 1024,
        some (500 * 1024 * 1024)⟩).1.code = 400 ∧
    (validate_upload ⟨true, "video.mp4".data, 600 * 1024 * 1024,
        some (500 * 1024 * 1024)⟩).1.body.valid = some false ∧
    (validate_upload ⟨true, "video.mp4".data, 600 * 1024 * 1024,
        some (500 * 1024 * 1024)⟩).2 = [] ∧
    Effect.mkdtemp ∉ (validate_upload ⟨true, "video.mp4".data, 600 * 1024 * 1024,
        some (500 * 1024 * 1024)⟩).2 ∧
    Effect.saveTemp ∉ (validate_upload ⟨true, "video.mp4".data, 600 * 1024 * 1024,
        some (500 * 1024 * 1024)⟩).2 :=
  validate_upload_over_ceiling _ rfl (by decide) (by decide)

open Auth in
/-- C9: logout always answers with the success body and HTTP 200, leaves
the token file absent and the session empty, and is idempotent: running it
again from the state it produced gives the same state and response. -/
theorem logout_succeeds_and_idempotent (s : AuthState) :
    (logout s).2 = ⟨200, ⟨"Successfully logged out".data, "success".data⟩⟩ ∧
    (logout s).1.tokenFileExists = false ∧
    (logout s).1.sessionKeys = [] ∧
    logout (logout s).1 = logout s := by
  cases s with
  | mk t k => cases t <;> simp [logout]

open Service in
/-- C1: get_youtube_service is a total function into Option Client (every
exception path of the source is a catch clause returning None), and it
returns none whenever the token file is missing, the credential file fails
to parse, the parsed credential is expired with no refresh token, or the
refresh call fails. -/
theorem get_youtube_service_absent (env : TokenEnv)
    (h : env.fileExists = false
      ∨ (∃ e, env.parseOutcome = .error e)
      ∨ (∃ c, env.parseOutcome = .ok c ∧ c.expired = true ∧ c.refresh_token = none)
      ∨ (∃ c e, env.parseOutcome = .ok c ∧ c.expired = true ∧
          env.refreshOutcome = .error e)) :
    get_youtube_service env = none := by
  by_cases hf : env.fileExists
  · rcases h with h | ⟨e, he⟩ | ⟨c, hc, hexp, hrt⟩ | ⟨c, e, hc, hexp, hre⟩
    · simp_all
    · simp [get_youtube_service, Except.map, hf, he]
    · simp [get_youtube_service, Except.map, hf, hc, Creds.valid, hexp, hrt, pyTruthy]
    · rcases Bool.eq_false_or_eq_true (pyTruthy c.refresh_token) with hrt | hrt <;>
        simp [get_youtube_service, Except.map, hf, hc, Creds.valid, hexp, hrt, hre]
  · simp [get_youtube_service, hf]

open Service in
/-- Witness for C1 at a concrete environment: a parsed credential that is
expired and has no refresh token. -/
theorem get_youtube_service_absent_witness :
    get_youtube_service
      ⟨true, .ok ⟨some "atok".data, true, none⟩, .ok ⟨some "atok".data, false, none⟩,
       .ok (), .ok ⟨0⟩⟩ = none :=
  get_youtube_service_absent _
    (Or.inr (Or.inr (Or.inl ⟨⟨some "atok".data, true, none⟩, rfl, rfl, rfl⟩)))

section SplitLemmas

/-- Splitting a string without the separator yields that string alone. -/
theorem pySplit_no_sep (sep : Char) : ∀ t : PyStr, sep ∉ t → pySplit sep t = [t]
  | [], _ => rfl
  | c :: cs, h => by
    have hc : ¬ (c = sep) := fun hh => h (by simp [hh])
    have ih := pySplit_no_sep sep cs fun hm => h (List.mem_cons_of_mem _ hm)
    simp [pySplit, hc, ih]

/-- Splitting peels off a separator-free leading segment. -/
theorem pySplit_append (sep : Char) : ∀ t rest : PyStr, sep ∉ t →
    pySplit sep (t ++ sep :: rest) = t :: pySplit sep rest
  | [], rest, _ => by simp [pySplit]
  | c :: cs, rest, h => by
    have hc : ¬ (c = sep) := fun hh => h (by simp [hh])
    have ih := pySplit_append sep cs rest fun hm => h (List.mem_cons_of_mem _ hm)
    simp [pySplit, hc, ih]

/-- lstrip is the identity when the first character is not whitespace. -/
theorem pyLstrip_eq_self (t : PyStr) (hh : ∀ c ∈ t.head?, pySpace c = false) :
    pyLstrip t = t := by
  cases t with
  | nil => rfl
  | cons c cs =>
    have := hh c rfl
    simp [pyLstrip, List.dropWhile_cons, this]

/-- rstrip is the identity when the last character is not whitespace. -/
theorem pyRstrip_eq_self (t : PyStr) (hl : ∀ c ∈ t.getLast?, pySpace c = false) :
    pyRstrip t = t := by
  have h2 : ∀ c ∈ t.reverse.head?, pySpace c = false := by
    rw [List.head?_reverse]; exact hl
  have h3 := pyLstrip_eq_self t.reverse h2
  unfold pyRstrip
  unfold pyLstrip at h3
  rw [h3, List.reverse_reverse]

/-- strip is the identity on a string with no whitespace at either end. -/
theorem pyStrip_eq_self (t : PyStr) (hh : ∀ c ∈ t.head?, pySpace c = false)
    (hl : ∀ c ∈ t.getLast?, pySpace c = false) : pyStrip t = t := by
  unfold pyStrip
  rw [pyLstrip_eq_self t hh, pyRstrip_eq_self t hl]

end SplitLemmas

open Metadata in
/-- C5: tag parsing round-trips on clean tag lists: if every tag is
non-empty, comma-free, and has no whitespace as first or last character,
then parsing the comma-joined string of the list gives back the list. -/
theorem parseTags_roundtrip (l : List PyStr)
    (hclean : ∀ t ∈ l, t ≠ [] ∧ ',' ∉ t ∧
      (∀ c ∈ t.head?, pySpace c = false) ∧ (∀ c ∈ t.getLast?, pySpace c = false)) :
    parseTags (pyJoin ',' l) = l := by
  induction l with
  | nil => rfl
  | cons t ts ih =>
    obtain ⟨hne, hnc, hh, hl⟩ := hclean t (by simp)
    have hstrip := pyStrip_eq_self t hh hl
    cases ts with
    | nil =>
      show parseTags t = [t]
      simp [parseTags, pySplit_no_sep ',' t hnc, hstrip, hne]
    | cons t2 ts2 =>
      have ih2 := ih fun x hx => hclean x (List.mem_cons_of_mem _ hx)
      have hstep : parseTags (pyJoin ',' (t :: t2 :: ts2)) =
          t :: parseTags (pyJoin ',' (t2 :: ts2)) := by
        show parseTags (t ++ ',' :: pyJoin ',' (t2 :: ts2)) = _
        unfold parseTags
        rw [pySplit_append ',' t _ hnc]
        simp [hstrip, hne]
      rw [hstep, ih2]

open Metadata in
/-- Witness for C5 at a concrete clean tag list. -/
theorem parseTags_roundtrip_witness :
    parseTags (pyJoin ',' ["tag one".data, "b".data]) = ["tag one".data, "b".data] :=
  parseTags_roundtrip ["tag one".data, "b".data] (by decide)

open Metadata in
/-- C4 counterexample: the category completion " 23 " is not a member of
the enumeration, yet generate_metadata returns category_id "23", not the
default "22" — the handler strips the completion before validating it, so
the claim quantified over raw completion strings fails. -/
theorem generate_metadata_category_raw_counterexample :
    paddedCategoryEnv.categoryOutcome = .ok " 23 ".data
    ∧ " 23 ".data ∉ valid_categories
    ∧ (generate_metadata paddedCategoryEnv).body.category_id = some "23".data
    ∧ (generate_metadata paddedCategoryEnv).body.category_id ≠ some "22".data := by
  exact ⟨rfl, by decide, by decide, by decide⟩

open Metadata in
/-- C4 amended: for every category completion whose whitespace-stripped
form is not a member of the fixed enumeration, generate_metadata succeeds
(HTTP 200, no error field) with category_id defaulted to "22". -/
theorem generate_metadata_category_default (env : MetaEnv) (t d g c : PyStr)
    (hdata : env.hasData = true)
    (hinput : ((env.text.getD []).isEmpty && (env.topic.getD []).isEmpty) = false)
    (ht : env.titleOutcome = .ok t)
    (hd : env.descriptionOutcome = .ok d)
    (hg : env.tagsOutcome = .ok g)
    (hc : env.categoryOutcome = .ok c)
    (hcat : pyStrip c ∉ valid_categories) :
    (generate_metadata env).code = 200 ∧
    (generate_metadata env).body.category_id = some "22".data ∧
    (generate_metadata env).body.error = none := by
  simp [generate_metadata, hdata, hinput, ht, hd, hg, hc, hcat]

open Metadata in
/-- Witness for C4 (amended) at a concrete environment whose category
completion is "99". -/
theorem generate_metadata_category_default_witness :
    (generate_metadata ⟨true, some "x".data, none, none, none, .ok "T".data,
      .ok "D".data, .ok "a,b".data, .ok "99".data⟩).code = 200 ∧
    (generate_metadata ⟨true, some "x".data, none, none, none, .ok "T".data,
      .ok "D".data, .ok "a,b".data, .ok "99".data⟩).body.category_id = some "22".data ∧
    (generate_metadata ⟨true, some "x".data, none, none, none, .ok "T".data,
      .ok "D".data, .ok "a,b".data, .ok "99".data⟩).body.error = none :=
  generate_metadata_category_default _ "T".data "D".data "a,b".data "99".data
    rfl (by decide) rfl rfl rfl rfl (by decide)

open Upload in
/-- C8: whenever upload_video returns after having saved the uploaded file
to its temporary path, the trace contains the removal of the temporary file
and of its directory — the finally block runs on the success path and on
every failure path of the upload. -/
theorem uploadVideo_cleanup (env : UploadEnv) (r : Resp UploadBody) (effs : List Effect)
    (h : uploadVideo env = some (r, effs)) (hsave : Effect.saveTemp ∈ effs) :
    Effect.removeTemp ∈ effs ∧ Effect.rmdirTemp ∈ effs := by
  simp only [uploadVideo] at h
  repeat' split at h
  all_goals first
    | exact Option.noConfusion h
    | (simp only [Option.some.injEq, Prod.mk.injEq] at h
       obtain ⟨h1, h2⟩ := h
       subst h2
       first
         | exact absurd hsave (by decide)
         | exact ⟨by decide, by decide⟩)

open Upload in
/-- Witness for C8 at a concrete successful upload without a playlist. -/
theorem uploadVideo_cleanup_witness :
    Effect.removeTemp ∈
      ([.mkdtemp, .saveTemp, .videosInsert, .removeTemp, .rmdirTemp] : List Effect) ∧
    Effect.rmdirTemp ∈
      ([.mkdtemp, .saveTemp, .videosInsert, .removeTemp, .rmdirTemp] : List Effect) :=
  uploadVideo_cleanup
    ⟨true, "a.mp4".data, none, none, none, none, none, none, true, [.done "v1".data], .ok ()⟩
    ⟨200, successBody "v1".data "Untitled Video".data⟩
    [.mkdtemp, .saveTemp, .videosInsert, .removeTemp, .rmdirTemp]
    (by decide) (by decide)

open Upload in
/-- C3 counterexample: in attachOtherErrorEnv the resumable upload reaches
its terminal success and the playlist-item insert call fails, yet
upload_video does not return the success response: the attach step swallows
only HttpError, and this non-HttpError exception escapes to the generic
handler, which answers HTTP 500 with an error body (no video_id). -/
theorem upload_attach_failure_counterexample :
    runChunks attachOtherErrorEnv.chunks = some (.ok "vid123".data)
    ∧ pyTruthy attachOtherErrorEnv.formPlaylistId = true
    ∧ attachOtherErrorEnv.playlistInsertOutcome = .error (.other "socket timeout".data)
    ∧ uploadVideo attachOtherErrorEnv =
        some (⟨500, { error := some "socket timeout".data, status := some "error".data }⟩,
          [.mkdtemp, .saveTemp, .videosInsert, .playlistItemsInsert, .removeTemp, .rmdirTemp])
    ∧ (uploadVideo attachOtherErrorEnv).map (fun p => p.1.code) = some 500
    ∧ (uploadVideo attachOtherErrorEnv).map (fun p => p.1.body.video_id) = some none := by
  exact ⟨rfl, by decide, rfl, by decide, by decide, by decide⟩

open Upload in
/-- C3 amended: when the resumable upload reaches terminal success and the
playlist-item insert fails with an HttpError, the failure is swallowed and
upload_video still returns the success response carrying video_id and
video_url (a non-HttpError failure at that step instead yields the generic
500 error response). -/
theorem upload_attach_http_error_swallowed (env : UploadEnv) (vid m : PyStr)
    (hvid : env.hasVideoField = true)
    (hfn : env.filename.isEmpty = false)
    (hext : allowed_file env.filename = true)
    (hyt : env.youtubeAvailable = true)
    (hup : runChunks env.chunks = some (.ok vid))
    (hpl : pyTruthy env.formPlaylistId = true)
    (hins : env.playlistInsertOutcome = .error (.http m)) :
    uploadVideo env =
      some (⟨200, successBody vid (env.formTitle.getD "Untitled Video".data)⟩,
        [.mkdtemp, .saveTemp, .videosInsert, .playlistItemsInsert,
         .removeTemp, .rmdirTemp]) := by
  simp [uploadVideo, hvid, hfn, hext, hyt, hup, hpl, hins]

open Upload in
/-- Witness for C3 (amended) at a concrete request whose attach step is
rejected by the host with an HttpError. -/
theorem upload_attach_http_error_swallowed_witness :
    uploadVideo
      ⟨true, "clip.mp4".data, none, none, none, none, none, some "PL1".data, true,
       [.done "vid9".data], .error (.http "quota exceeded".data)⟩ =
      some (⟨200, successBody "vid9".data "Untitled Video".data⟩,
        [.mkdtemp, .saveTemp, .videosInsert, .playlistItemsInsert,
         .removeTemp, .rmdirTemp]) :=
  upload_attach_http_error_swallowed _ "vid9".data "quota exceeded".data
    rfl (by decide) (by decide) rfl rfl rfl rfl

section PaginationLemmas

open Playlists

/-- Under the chain discipline, the token of page i points at page i + 1,
and the last page carries no token. -/
theorem chained_getElem (pages : List Page) (h : chained pages) (i : Nat)
    (hi : i < pages.length) :
    pages[i].nextPageToken = if i + 1 < pages.length then some (i + 1) else none := by
  have hh := h i (List.mem_range.mpr hi)
  rw [List.getElem?_eq_getElem hi] at hh
  simpa using hh

set_option maxRecDepth 4096 in
/-- The pagination loop over a chained mock, started at page i with enough
fuel, returns the marshalled concatenation of the remaining pages' items
and issues exactly one request per remaining page, in index order. -/
theorem listLoop_chained (pages : List Page) (h : chained pages) :
    ∀ fuel i, i < pages.length → pages.length ≤ i + fuel →
      listLoop pages fuel (some i) =
        some ((((pages.drop i).map Page.items).join).map marshalItem,
          (List.range' i (pages.length - i)).map fun j => mkReq (some j)) := by
  intro fuel
  induction fuel with
  | zero => intro i hi hle; omega
  | succ f ih =>
    intro i hi hle
    have hserve : serve pages (some i) = some pages[i] := by
      simp [serve, List.getElem?_eq_getElem hi]
    have htok := chained_getElem pages h i hi
    by_cases hlt : i + 1 < pages.length
    · rw [if_pos hlt] at htok
      have ihh := ih (i + 1) hlt (by omega)
      have hdrop : pages.drop i = pages[i] :: pages.drop (i + 1) :=
        List.drop_eq_getElem_cons hi
      have hrange : List.range' i (pages.length - i) =
          i :: List.range' (i + 1) (pages.length - (i + 1)) := by
        have he : pages.length - i = (pages.length - (i + 1)) + 1 := by omega
        rw [he, List.range'_succ]
      simp only [listLoop, hserve, htok]
      rw [ihh, hdrop, hrange]
      simp [List.map_append]
      have hlen : i < (List.map (List.map marshalItem ∘ Page.items) pages).length := by
        simpa using hi
      rw [List.drop_eq_getElem_cons hlen]
      simp [Function.comp]
    · rw [if_neg hlt] at htok
      have hd2 : pages.drop (i + 1) = [] := List.drop_eq_nil_of_le (by omega)
      have hdrop : pages.drop i = [pages[i]] := by
        rw [List.drop_eq_getElem_cons hi, hd2]
      have hrange : List.range' i (pages.length - i) = [i] := by
        have he : pages.length - i = 1 := by omega
        rw [he]; simp
      simp [listLoop, hserve, htok, hdrop, hrange]

end PaginationLemmas

open Playlists in
/-- C2: against a chained mock (each page except the last carries the token
of its successor), list_playlists returns the marshalled concatenation of
all pages' items in page order, issues exactly one request per page — the
requested page indices are 0, 1, ..., n-1 with no duplicate — and every
request carries maxResults = 50. -/
theorem list_playlists_paginates (pages : List Page) (hne : pages ≠ [])
    (hchain : chained pages) :
    list_playlists pages =
      some (⟨200, ⟨((pages.map Page.items).join).map marshalItem,
          (((pages.map Page.items).join).map marshalItem).length, "success".data⟩⟩,
        mkReq none :: (List.range' 1 (pages.length - 1)).map fun j => mkReq (some j))
    ∧ ((mkReq none :: (List.range' 1 (pages.length - 1)).map fun j => mkReq (some j)).map
        fun r => r.pageToken.getD 0) = List.range pages.length
    ∧ (List.range pages.length).Nodup
    ∧ (∀ r ∈ mkReq none :: (List.range' 1 (pages.length - 1)).map fun j => mkReq (some j),
        r.maxResults = 50) := by
  have h0 : 0 < pages.length := List.length_pos.mpr hne
  have hserve0 : serve pages none = some pages[0] := by
    simp [serve, List.getElem?_eq_getElem h0]
  have htok0 := chained_getElem pages hchain 0 h0
  have hdrop0 : pages = pages[0] :: pages.drop 1 := by
    have hd := List.drop_eq_getElem_cons h0 (l := pages)
    rwa [List.drop_zero] at hd
  have hmain : listLoop pages pages.length none =
      some (((pages.map Page.items).join).map marshalItem,
        mkReq none :: (List.range' 1 (pages.length - 1)).map fun j => mkReq (some j)) := by
    obtain ⟨m, hm⟩ : ∃ m, pages.length = m + 1 := ⟨pages.length - 1, by omega⟩
    by_cases h1 : 1 < pages.length
    · rw [if_pos h1] at htok0
      have hloop := listLoop_chained pages hchain m 1 h1 (by omega)
      have hjoin : ((pages.map Page.items).join).map marshalItem =
          pages[0].items.map marshalItem ++
            (((pages.drop 1).map Page.items).join).map marshalItem := by
        conv_lhs => rw [hdrop0]
        simp [List.map_append]
      have hm2 : pages.length - 1 = m := by omega
      rw [hm]
      simp [listLoop, hserve0, htok0, hloop, hjoin, hm2]
    · have hn1 : pages.length = 1 := by omega
      rw [if_neg h1] at htok0
      have hd1 : pages.drop 1 = [] := List.drop_eq_nil_of_le (by omega)
      have hjoin : ((pages.map Page.items).join).map marshalItem =
          pages[0].items.map marshalItem := by
        conv_lhs => rw [hdrop0]
        simp [hd1]
      have hr : List.range' 1 (pages.length - 1) = [] := by
        simp [hn1]
      have hm0 : m = 0 := by omega
      subst hm0
      rw [hm]
      simp [listLoop, hserve0, htok0, hjoin, hr]
  refine ⟨?_, ?_, List.nodup_range _, ?_⟩
  · simp [list_playlists, hmain]
  · have hrn : (0 : Nat) :: List.range' 1 (pages.length - 1) = List.range pages.length := by
      rw [List.range_eq_range']
      conv_rhs => rw [show pages.length = (pages.length - 1) + 1 by omega]
      simp [List.range'_succ]
    simp only [List.map_cons, List.map_map]
    rw [show ((fun r => r.pageToken.getD 0) ∘ fun j => mkReq (some j)) = fun j : Nat => j
      from rfl]
    simpa [mkReq] using hrn
  · intro r hr
    rcases List.mem_cons.mp hr with h | h
    · subst h
      rfl
    · obtain ⟨j, hj, rfl⟩ := List.mem_map.mp h
      rfl

open Playlists in
/-- Witness for C2 at the concrete two-page chained mock. -/
theorem list_playlists_paginates_witness :
    list_playlists twoPages =
      some (⟨200, ⟨((twoPages.map Page.items).join).map marshalItem,
          (((twoPages.map Page.items).join).map marshalItem).length, "success".data⟩⟩,
        mkReq none :: (List.range' 1 (twoPages.length - 1)).map fun j => mkReq (some j))
    ∧ ((mkReq none :: (List.range' 1 (twoPages.length - 1)).map fun j => mkReq (some j)).map
        fun r => r.pageToken.getD 0) = List.range twoPages.length
    ∧ (List.range twoPages.length).Nodup
    ∧ (∀ r ∈ mkReq none :: (List.range' 1 (twoPages.length - 1)).map fun j => mkReq (some j),
        r.maxResults = 50) :=
  list_playlists_paginates twoPages (by decide) (by decide)

end YTAuto
